import Mathlib

/-!
Verification of the skinmenu media-derivative pipeline

Shallow embedding of `media_derivatives/worker.py`, `models.py`, `views.py`
and `templatetags/media_derivatives_tags.py`.

Modelling conventions:
* The Django table of `VideoDerivative` rows is a `List VideoDerivative`;
  a queryset `update()` is a conditional `List.map`.
* Timestamps are abstract `Nat` tick values supplied by the environment.
* External effects (filesystem checks, subprocess outcomes, the Wagtail
  image save) are supplied by an `Env` oracle; the control
  flow, database writes, cache deletions and subprocess spawns are modelled
  exactly and recorded in an ordered event trace.
-/

namespace Skinmenu

/-- Status enum `VideoDerivative.Status` from models.py. -/
inductive Status
  | pending
  | processing
  | ready
  | failed
deriving DecidableEq, Repr

/-- Kind enum `VideoDerivative.Kind` from models.py. -/
inductive Kind
  | webm
  | mp4
  | other
deriving DecidableEq, Repr

/-- One row of the `VideoDerivative` table (models.py).  `file` is the
output FileField (`none` while unset), `posterImage` the FK to the poster
image by id. -/
structure VideoDerivative where
  pk : Nat
  documentId : Nat
  profileSlug : String
  kind : Kind
  file : Option String
  posterImage : Option Nat
  status : Status
  progress : Nat
  startedAt : Option Nat
  finishedAt : Option Nat
  error : String
  updatedAt : Nat
deriving DecidableEq, Repr

/-- The claim filter of worker.py lines 212-216: rows of this document and
profile whose kind is MP4 or WEBM and whose status is PENDING or FAILED. -/
def claimPred (docId : Nat) (profile : String) (r : VideoDerivative) : Bool :=
  r.documentId == docId && r.profileSlug == profile &&
    (r.kind == Kind.mp4 || r.kind == Kind.webm) &&
    (r.status == Status.pending || r.status == Status.failed)

/-- The field assignment of the claim `update()` (worker.py lines 217-224). -/
def claimRow (now : Nat) (r : VideoDerivative) : VideoDerivative :=
  { r with
    status := Status.processing
    progress := 0
    startedAt := some now
    finishedAt := none
    error := ""
    updatedAt := now }

/-- The atomic conditional claim update (worker.py lines 212-224): updates
every matching row and reports how many rows it changed. -/
def claimUpdate (now : Nat) (docId : Nat) (profile : String)
    (db : List VideoDerivative) : List VideoDerivative × Nat :=
  (db.map fun r => if claimPred docId profile r then claimRow now r else r,
   (db.filter (claimPred docId profile)).length)

/-- A queryset `.update()` restricted by a row predicate. -/
def updateWhere (p : VideoDerivative → Bool)
    (f : VideoDerivative → VideoDerivative)
    (db : List VideoDerivative) : List VideoDerivative :=
  db.map fun r => if p r then f r else r

/-- Membership test for `pk__in=[a, b]`. -/
def pkIn2 (a b : Nat) (r : VideoDerivative) : Bool :=
  r.pk == a || r.pk == b

/-- Row fetch `.filter(document=..., profile_slug=..., kind=...).first()`
(worker.py lines 243-248). -/
def findKind (docId : Nat) (profile : String) (k : Kind)
    (db : List VideoDerivative) : Option VideoDerivative :=
  (db.filter fun r =>
    r.documentId == docId && r.profileSlug == profile && r.kind == k).head?

/-- Upload path `_derived_upload_path` from models.py: the storage name a saved
derivative file receives. -/
def derivedUploadPath (docId : Nat) (profile : String) (k : Kind) : String :=
  "derived/videos/" ++ toString docId ++ "/" ++ profile ++ "/" ++
    (match k with
     | Kind.webm => "video.webm"
     | Kind.mp4 => "video.mp4"
     | Kind.other => "file.bin")

/-- Python string slicing `s[:n]`. -/
def pyTrunc (n : Nat) (s : String) : String := (s.toList.take n).asString

/-- Observable side effects of one worker invocation, in program order:
the claim update (with its row count), every ledger write, every cache
invalidation, and every subprocess spawn. -/
inductive Ev
  | claim (count : Nat)
  | dbWrite (tag : String)
  | cacheDelete
  | spawn (label : String)
deriving DecidableEq, Repr

/-- Oracle for the external effects of `transcode_document_video`:
filesystem answers, subprocess outcomes (a `_run_with_progress` call either
returns or raises a message), progress lines delivered to the stage
callbacks, the saved poster image id, and the `timezone.now()` values read
at each call site. -/
structure Env where
  inputPath : String
  pathInsideRoot : Bool
  sourceFileExists : Bool
  probe : Except String Nat
  posterRun : Except String Unit
  posterFileOk : Bool
  posterImageId : Nat
  mp4Events : List Nat
  mp4Run : Except String Unit
  mp4FileOk : Bool
  webmEvents : List Nat
  webmRun : Except String Unit
  webmFileOk : Bool
  tClaim : Nat
  tMp4Done : Nat
  tWebmDone : Nat
  tWebmFail : Nat
  tFailAll : Nat

/-- Result of one invocation: final table, the propagated exception message
(`none` when the call returns normally), and the ordered effect trace. -/
structure Outcome where
  db : List VideoDerivative
  raised : Option String
  trace : List Ev
deriving DecidableEq, Repr

/-- Percentage `pct = min(99, int(out_time_ms / duration_ms * 100))` from the stage
progress callbacks (worker.py lines 349, 416); float division followed by
`int()` truncation is modelled as exact natural division. -/
def progressPct (durationMs t : Nat) : Nat := min 99 (t * 100 / durationMs)

/-- The sequence of `update(progress=max(5, pct))` writes issued by a stage
progress callback for the out_time_ms values delivered during the stage. -/
def applyStageProgress (rpk : Nat) (durationMs : Nat) (events : List Nat)
    (db : List VideoDerivative) : List VideoDerivative :=
  events.foldl (fun acc t =>
    updateWhere (fun r => r.pk == rpk)
      (fun r => { r with progress := max 5 (progressPct durationMs t) }) acc) db

/-- The `_fail_all` field assignment (worker.py lines 271-279). -/
def failAllRow (t : Nat) (msg : String) (r : VideoDerivative) : VideoDerivative :=
  { r with
    status := Status.failed
    error := msg
    finishedAt := some t
    progress := 0
    updatedAt := t }

/-- Outer `except Exception` path (worker.py lines 495-497): `_fail_all`
with the prefixed message plus its cache delete, then the original
exception re-raises. -/
def failAllOutcome (env : Env) (mp4pk webmpk : Nat) (e : String)
    (db : List VideoDerivative) (tr : List Ev) : Outcome :=
  ⟨updateWhere (pkIn2 mp4pk webmpk) (failAllRow env.tFailAll ("Transcode failed: " ++ e)) db,
   some e,
   tr ++ [Ev.dbWrite "failAll", Ev.cacheDelete]⟩

/-- WebM `except Exception` branch (worker.py lines 481-491): only the webm
row is failed, the error is prefixed and truncated to 1000 characters,
`progress` is not touched, the exception is swallowed; the `finally`
(line 492-493) then deletes the cache entry. -/
def webmFailOutcome (env : Env) (webmpk : Nat) (e : String)
    (db : List VideoDerivative) (tr : List Ev) : Outcome :=
  ⟨updateWhere (fun r => r.pk == webmpk)
     (fun r => { r with
        status := Status.failed
        error := pyTrunc 1000 ("WebM failed: " ++ e)
        finishedAt := some env.tWebmFail
        updatedAt := env.tWebmFail }) db,
   none,
   tr ++ [Ev.dbWrite "webmFailed", Ev.cacheDelete]⟩

/-- The body of the outer `try` (worker.py lines 284-493): poster stage,
MP4 stage, WebM stage, with the outer `except` applied to every exception
escaping the poster or MP4 stages.  Model.save() calls apply the
`auto_now` updated_at stamp; queryset.update() calls touch only the fields
they pass. -/
def transcodeStages (env : Env) (mp4pk webmpk : Nat) (durationMs : Nat)
    (db : List VideoDerivative) (tr : List Ev) : Outcome :=
  -- line 294: immediate life-sign progress on both rows
  let db1 := updateWhere (pkIn2 mp4pk webmpk) (fun r => { r with progress := 1 }) db
  let tr1 := tr ++ [Ev.dbWrite "progress1", Ev.spawn "poster"]
  match env.posterRun with
  | Except.error e => failAllOutcome env mp4pk webmpk e db1 tr1
  | Except.ok _ =>
  if !env.posterFileOk then
    failAllOutcome env mp4pk webmpk "Poster output was not created or is empty." db1 tr1
  else
  -- lines 330-343: save the poster image, attach it to both rows, progress 5
  let db2 := updateWhere (pkIn2 mp4pk webmpk)
      (fun r => { r with posterImage := some env.posterImageId, progress := 5 }) db1
  let tr2 := tr1 ++ [Ev.dbWrite "posterAttach", Ev.spawn "mp4"]
  -- lines 348-388: MP4 stage; callbacks write progress during the run
  let db3 := applyStageProgress mp4pk durationMs env.mp4Events db2
  let tr3 := tr2 ++ env.mp4Events.map (fun _ => Ev.dbWrite "mp4Prog")
  match env.mp4Run with
  | Except.error e => failAllOutcome env mp4pk webmpk e db3 tr3
  | Except.ok _ =>
  if !env.mp4FileOk then
    failAllOutcome env mp4pk webmpk "MP4 output file was not created or is empty." db3 tr3
  else
  -- lines 393-406: MP4 row becomes READY; cache invalidated right after
  let db4 := updateWhere (fun r => r.pk == mp4pk)
      (fun r => { r with
        file := some (derivedUploadPath r.documentId r.profileSlug r.kind)
        posterImage := some env.posterImageId
        status := Status.ready
        progress := 100
        finishedAt := some env.tMp4Done
        error := ""
        updatedAt := env.tMp4Done }) db3
  let tr4 := tr3 ++ [Ev.dbWrite "mp4Ready", Ev.cacheDelete, Ev.spawn "webm"]
  -- lines 415-493: WebM stage inside its own try/except/finally
  let db5 := applyStageProgress webmpk durationMs env.webmEvents db4
  let tr5 := tr4 ++ env.webmEvents.map (fun _ => Ev.dbWrite "webmProg")
  match env.webmRun with
  | Except.error e => webmFailOutcome env webmpk e db5 tr5
  | Except.ok _ =>
  if !env.webmFileOk then
    webmFailOutcome env webmpk "WebM output file was not created or is empty." db5 tr5
  else
  let db6 := updateWhere (fun r => r.pk == webmpk)
      (fun r => { r with
        file := some (derivedUploadPath r.documentId r.profileSlug r.kind)
        posterImage := some env.posterImageId
        status := Status.ready
        progress := 100
        finishedAt := some env.tWebmDone
        error := ""
        updatedAt := env.tWebmDone }) db5
  ⟨db6, none, tr5 ++ [Ev.dbWrite "webmReady", Ev.cacheDelete]⟩

/-- Message of the path-traversal ValueError (worker.py line 261). -/
def mediaRootMsg (env : Env) : String :=
  "File path \x27" ++ env.inputPath ++ "\x27 is outside MEDIA_ROOT"

/-- Worker entry point `transcode_document_video` (worker.py lines 201-497).  Steps in program
order: atomic claim; zero-row no-op return; fetch of the two rows (missing
rows raise); path-safety check; source-existence check; duration probe
(whose `CalledProcessError` propagates uncaught); then the staged pipeline
under the outer try/except. -/
def transcodeDocumentVideo (env : Env) (docId : Nat) (profile : String)
    (db : List VideoDerivative) : Outcome :=
  let claimed := claimUpdate env.tClaim docId profile db
  let tr := [Ev.claim claimed.2]
  if claimed.2 == 0 then
    -- lines 226-240: read-only READY re-check and log; no further writes
    ⟨claimed.1, none, tr⟩
  else
    match findKind docId profile Kind.mp4 claimed.1,
          findKind docId profile Kind.webm claimed.1 with
    | some mp4row, some webmrow =>
        if !env.pathInsideRoot then
          ⟨claimed.1, some (mediaRootMsg env), tr⟩
        else if !env.sourceFileExists then
          ⟨claimed.1, some ("Source file does not exist: " ++ env.inputPath), tr⟩
        else
          let tr2 := tr ++ [Ev.spawn "ffprobe"]
          match env.probe with
          | Except.error e => ⟨claimed.1, some e, tr2⟩
          | Except.ok dms =>
              transcodeStages env mp4row.pk webmrow.pk (max 1 dms) claimed.1 tr2
    | _, _ =>
        ⟨claimed.1, some ("Missing derivative rows for document_id=" ++ toString docId), tr⟩

/-! Claim protocol lemmas -/

/-- Lemma: `updateWhere` leaves a table unchanged when no row matches. -/
lemma updateWhere_no_match {p : VideoDerivative → Bool}
    {f : VideoDerivative → VideoDerivative} :
    ∀ {db : List VideoDerivative}, (∀ r ∈ db, p r = false) →
      updateWhere p f db = db := by
  intro db
  induction db with
  | nil => intro _; rfl
  | cons r rest ih =>
    intro h
    simp only [updateWhere, List.map_cons] at *
    rw [h r (List.mem_cons_self r rest)]
    simp only [Bool.false_eq_true, if_false, List.cons.injEq, true_and]
    exact ih fun s hs => h s (List.mem_cons_of_mem r hs)

/-- The first component of the claim update is an `updateWhere`. -/
lemma claimUpdate_fst (now docId : Nat) (profile : String)
    (db : List VideoDerivative) :
    (claimUpdate now docId profile db).1 =
      updateWhere (claimPred docId profile) (claimRow now) db := rfl

/-- A freshly claimed row is PROCESSING, hence no longer matched by the
claim predicate: the transition predicate is self-clearing. -/
lemma claimRow_not_pred (now docId : Nat) (profile : String)
    (r : VideoDerivative) : claimPred docId profile (claimRow now r) = false := by
  simp [claimPred, claimRow]

/-- After one claim update, a second claim update on the result matches
zero rows. -/
lemma claimUpdate_self_clearing (now now2 docId : Nat) (profile : String)
    (db : List VideoDerivative) :
    (claimUpdate now2 docId profile (claimUpdate now docId profile db).1).2 = 0 := by
  simp only [claimUpdate, List.length_eq_zero]
  rw [List.filter_eq_nil_iff]
  intro a ha
  rcases List.mem_map.mp ha with ⟨r, _, hr⟩
  by_cases h : claimPred docId profile r
  · rw [if_pos h] at hr
    rw [← hr, claimRow_not_pred]
    simp
  · rw [if_neg h] at hr
    rw [← hr]
    simpa using h

/-- A claim that changed zero rows left the table unchanged. -/
lemma claimUpdate_count_zero_id (now docId : Nat) (profile : String)
    (db : List VideoDerivative)
    (h : (claimUpdate now docId profile db).2 = 0) :
    (claimUpdate now docId profile db).1 = db := by
  have h' : ∀ r ∈ db, claimPred docId profile r = false := by
    simp only [claimUpdate, List.length_eq_zero, List.filter_eq_nil_iff] at h
    intro r hr
    simpa using h r hr
  rw [claimUpdate_fst, updateWhere_no_match h']

/-! Sample data for concrete evaluations -/

/-- A pending MP4 row for document 42, profile p1. -/
def mp4PendingRow : VideoDerivative :=
  { pk := 1, documentId := 42, profileSlug := "p1", kind := Kind.mp4,
    file := none, posterImage := none, status := Status.pending, progress := 0,
    startedAt := none, finishedAt := none, error := "", updatedAt := 0 }

/-- A pending WEBM row for document 42, profile p1. -/
def webmPendingRow : VideoDerivative :=
  { mp4PendingRow with pk := 2, kind := Kind.webm }

/-- A READY MP4 row with a populated output file. -/
def mp4ReadyRow : VideoDerivative :=
  { mp4PendingRow with
    status := Status.ready
    file := some "derived/videos/42/p1/video.mp4"
    progress := 100
    posterImage := some 7 }

/-- A READY WEBM row with a populated output file. -/
def webmReadyRow : VideoDerivative :=
  { webmPendingRow with
    status := Status.ready
    file := some "derived/videos/42/p1/video.webm"
    progress := 100
    posterImage := some 7 }

/-- A FAILED WEBM row (re-claimable). -/
def webmFailedRow : VideoDerivative :=
  { webmPendingRow with status := Status.failed, error := "boom" }

/-- An environment in which every external effect succeeds. -/
def envBase : Env :=
  { inputPath := "documents/clip.mp4", pathInsideRoot := true,
    sourceFileExists := true, probe := Except.ok 10000,
    posterRun := Except.ok (), posterFileOk := true, posterImageId := 7,
    mp4Events := [], mp4Run := Except.ok (), mp4FileOk := true,
    webmEvents := [], webmRun := Except.ok (), webmFileOk := true,
    tClaim := 100, tMp4Done := 200, tWebmDone := 300, tWebmFail := 300,
    tFailAll := 400 }

/-! C1: the claim protocol -/

/-- C1: claiming is a single conditional update: it transitions exactly
the MP4/WEBM rows of the (document, profile) whose state is Pending or
Failed to Processing, resetting progress to 0, stamping started_at and
clearing the error; of two claim attempts with no intervening transition
the second always changes zero rows; and a claimer whose update changed
zero rows performs no further effects — its table is unchanged and its
trace holds nothing but the zero-count claim (no ledger write, no
subprocess spawn, no cache delete). -/
theorem C1_claim_protocol (now docId : Nat) (profile : String)
    (db : List VideoDerivative) :
    (∀ r, claimPred docId profile r = true ↔
        (r.documentId = docId ∧ r.profileSlug = profile ∧
         (r.kind = Kind.mp4 ∨ r.kind = Kind.webm) ∧
         (r.status = Status.pending ∨ r.status = Status.failed))) ∧
    ((claimUpdate now docId profile db).1 =
      db.map fun r => if claimPred docId profile r then claimRow now r else r) ∧
    (∀ r, (claimRow now r).status = Status.processing ∧
        (claimRow now r).progress = 0 ∧
        (claimRow now r).startedAt = some now ∧
        (claimRow now r).finishedAt = none ∧
        (claimRow now r).error = "") ∧
    (∀ now2, (claimUpdate now2 docId profile
        (claimUpdate now docId profile db).1).2 = 0) ∧
    (∀ env : Env, env.tClaim = now →
        (claimUpdate now docId profile db).2 = 0 →
        transcodeDocumentVideo env docId profile db =
          { db := db, raised := none, trace := [Ev.claim 0] }) := by
  refine ⟨?_, rfl, ?_, ?_, ?_⟩
  · intro r
    simp [claimPred]
    tauto
  · intro r
    exact ⟨rfl, rfl, rfl, rfl, rfl⟩
  · intro now2
    exact claimUpdate_self_clearing now now2 docId profile db
  · intro env hEnv h
    subst hEnv
    simp [transcodeDocumentVideo, h,
      claimUpdate_count_zero_id env.tClaim docId profile db h]

/-- Witness for C1: on a table whose rows are all READY the worker is a
pure no-op. -/
theorem C1_claim_protocol_witness :
    transcodeDocumentVideo envBase 42 "p1" [mp4ReadyRow, webmReadyRow] =
      { db := [mp4ReadyRow, webmReadyRow], raised := none,
        trace := [Ev.claim 0] } :=
  (C1_claim_protocol 100 42 "p1" [mp4ReadyRow, webmReadyRow]).2.2.2.2
    envBase rfl (by decide)

/-! C2: exceptions after a successful claim -/

/-- A row of an updated table is the image of a row of the old table. -/
lemma mem_updateWhere {p : VideoDerivative → Bool}
    {f : VideoDerivative → VideoDerivative} {db : List VideoDerivative}
    {r : VideoDerivative} (hr : r ∈ updateWhere p f db) :
    ∃ s ∈ db, r = if p s then f s else s := by
  rcases List.mem_map.mp hr with ⟨s, hs, hsr⟩
  exact ⟨s, hs, hsr.symm⟩

/-- The job-level failure message is never empty. -/
lemma transcode_failed_msg_ne_empty (e : String) :
    ("Transcode failed: " ++ e) ≠ "" := by
  intro h
  have := congrArg String.length h
  simp [String.length_append] at this
  exact absurd this.1 (by decide)

/-- Lemma: `failAllRow` preserves the primary key. -/
lemma failAllRow_pk (t : Nat) (m : String) (r : VideoDerivative) :
    (failAllRow t m r).pk = r.pk := rfl

/-- Whenever the staged pipeline lets an exception escape, it has already
moved every row of the job (both pks) to FAILED with a non-empty error. -/
lemma transcodeStages_raised_failed (env : Env) (a b d : Nat)
    (db : List VideoDerivative) (tr : List Ev) (msg : String)
    (h : (transcodeStages env a b d db tr).raised = some msg) :
    ∀ r ∈ (transcodeStages env a b d db tr).db,
      pkIn2 a b r = true → r.status = Status.failed ∧ r.error ≠ "" := by
  have key : ∀ (e : String) (dbx : List VideoDerivative) (trx : List Ev),
      ∀ r ∈ (failAllOutcome env a b e dbx trx).db, pkIn2 a b r = true →
        r.status = Status.failed ∧ r.error ≠ "" := by
    intro e dbx trx r hr hpk
    rcases mem_updateWhere hr with ⟨s, _, hsr⟩
    by_cases hps : pkIn2 a b s
    · rw [if_pos hps] at hsr
      subst hsr
      exact ⟨rfl, transcode_failed_msg_ne_empty e⟩
    · rw [if_neg hps] at hsr
      subst hsr
      exact absurd hpk (by simpa using hps)
  rcases hp : env.posterRun with e | u
  · simp only [transcodeStages, hp] at h ⊢
    exact key _ _ _
  rcases hpf : env.posterFileOk
  · simp only [transcodeStages, hp, hpf, Bool.not_false, if_true] at h ⊢
    exact key _ _ _
  rcases hm : env.mp4Run with e | u
  · simp only [transcodeStages, hp, hpf, Bool.not_true, Bool.false_eq_true, if_false, hm] at h ⊢
    exact key _ _ _
  rcases hmf : env.mp4FileOk
  · simp only [transcodeStages, hp, hpf, hm, hmf, Bool.not_true, Bool.not_false, Bool.false_eq_true,
      if_true, if_false] at h ⊢
    exact key _ _ _
  rcases hw : env.webmRun with e | u
  · simp only [transcodeStages, hp, hpf, hm, hmf, hw, Bool.not_true, Bool.false_eq_true, if_false,
      webmFailOutcome] at h
    exact absurd h (by simp)
  rcases hwf : env.webmFileOk
  · simp only [transcodeStages, hp, hpf, hm, hmf, hw, hwf, Bool.not_true,
      Bool.not_false, Bool.false_eq_true, if_true, if_false, webmFailOutcome] at h
    exact absurd h (by simp)
  simp only [transcodeStages, hp, hpf, hm, hmf, hw, hwf, Bool.not_true, Bool.false_eq_true,
    if_false] at h
  exact absurd h (by simp)

/-- Environment in which the path-safety check fails. -/
def envOutsideRoot : Env := { envBase with pathInsideRoot := false }

/-- Environment in which the poster subprocess fails. -/
def envPosterFail : Env := { envBase with posterRun := Except.error "poster timed out" }

/-- C2 counterexample: after a successful claim (two rows changed), the
path-safety ValueError is raised *before* the `try` block that guards the
stage sequence, so the exception propagates while both claimed records are
still in Processing with an empty error — the claim that every
post-claim exception forces the records to Failed is false on the code. -/
theorem C2_processing_leak_counterexample :
    (transcodeDocumentVideo envOutsideRoot 42 "p1"
        [mp4PendingRow, webmPendingRow]).raised.isSome = true ∧
    ((transcodeDocumentVideo envOutsideRoot 42 "p1"
        [mp4PendingRow, webmPendingRow]).db.map fun r => r.status) =
      [Status.processing, Status.processing] := by decide

/-- C2 (amended): for every exception raised *from inside the staged
pipeline* (the `try` block: poster stage onward — i.e. when the path check,
source-file check and probe all succeeded and both rows were fetched), all
of the job records are set to Failed with a non-empty error before the
exception propagates.  Exceptions raised between the claim and the `try`
(missing rows, path-safety violation, missing source file, probe failure)
propagate with the claimed rows still in Processing. -/
theorem C2_fail_all_inside_try (env : Env) (docId : Nat) (profile : String)
    (db : List VideoDerivative) (msg : String) (dms : Nat)
    (m w : VideoDerivative)
    (hpath : env.pathInsideRoot = true)
    (hfile : env.sourceFileExists = true)
    (hprobe : env.probe = Except.ok dms)
    (hm : findKind docId profile Kind.mp4
        (claimUpdate env.tClaim docId profile db).1 = some m)
    (hw : findKind docId profile Kind.webm
        (claimUpdate env.tClaim docId profile db).1 = some w)
    (hr : (transcodeDocumentVideo env docId profile db).raised = some msg) :
    ∀ r ∈ (transcodeDocumentVideo env docId profile db).db,
      (r.pk = m.pk ∨ r.pk = w.pk) → r.status = Status.failed ∧ r.error ≠ "" := by
  rcases hc : (claimUpdate env.tClaim docId profile db).2 with _ | n
  · simp only [transcodeDocumentVideo, hc] at hr
    exact absurd hr (by simp)
  · have hc' : ((claimUpdate env.tClaim docId profile db).2 == 0) = false := by
      rw [hc]; simp
    simp only [transcodeDocumentVideo, hc', Bool.false_eq_true, if_false, hm, hw,
      hpath, hfile, hprobe, Bool.not_true, Bool.false_eq_true] at hr ⊢
    intro r hrm hpk
    refine transcodeStages_raised_failed env m.pk w.pk (max 1 dms) _ _ msg hr r hrm ?_
    simp only [pkIn2, Bool.or_eq_true, beq_iff_eq]
    exact hpk

/-- Witness for C2 (amended): a poster-stage failure raises and leaves both
records Failed with non-empty errors. -/
theorem C2_fail_all_inside_try_witness :
    (transcodeDocumentVideo envPosterFail 42 "p1"
        [mp4PendingRow, webmPendingRow]).raised = some "poster timed out" ∧
    ∀ r ∈ (transcodeDocumentVideo envPosterFail 42 "p1"
        [mp4PendingRow, webmPendingRow]).db,
      (r.pk = (claimRow 100 mp4PendingRow).pk ∨
       r.pk = (claimRow 100 webmPendingRow).pk) →
        r.status = Status.failed ∧ r.error ≠ "" :=
  ⟨by decide,
   C2_fail_all_inside_try envPosterFail 42 "p1" [mp4PendingRow, webmPendingRow]
     "poster timed out" 10000 (claimRow 100 mp4PendingRow)
     (claimRow 100 webmPendingRow) rfl rfl rfl (by decide) (by decide) (by decide)⟩

/-! C3: Ready records vs duplicate deliveries -/

/-- C3 counterexample: with the MP4 record Ready and its sibling WEBM
record Failed, a duplicate delivery claims the sibling (one row changed)
and then re-runs the whole job for both pks; when its poster stage fails,
`_fail_all` overwrites the Ready MP4 record to Failed — so a Ready record
is *not* always preserved by a late-arriving duplicate job. -/
theorem C3_ready_overwritten_counterexample :
    mp4ReadyRow.status = Status.ready ∧
    ((transcodeDocumentVideo envPosterFail 42 "p1"
        [mp4ReadyRow, webmFailedRow]).db.map fun r => (r.pk, r.status)) =
      [(1, Status.failed), (2, Status.failed)] := by decide

/-- C3 (amended): the conditional claim never matches a Ready record,
while a Failed MP4/WEBM record of the job is always matched (re-claimable);
and when *no* row of the job is Pending or Failed, the duplicate delivery
matches zero rows and returns as a pure no-op, preserving every record
(including the state and file of each Ready record).  When a sibling row is
still claimable, however, the duplicate re-processes the whole job and may
overwrite the Ready record. -/
theorem C3_ready_never_reclaimed (now docId : Nat) (profile : String)
    (db : List VideoDerivative) :
    (∀ r ∈ db, r.status = Status.ready → claimPred docId profile r = false) ∧
    (∀ r ∈ db, r.documentId = docId → r.profileSlug = profile →
        (r.kind = Kind.mp4 ∨ r.kind = Kind.webm) → r.status = Status.failed →
        claimPred docId profile r = true) ∧
    (∀ env : Env, env.tClaim = now →
        (∀ r ∈ db, r.documentId = docId → r.profileSlug = profile →
          (r.kind = Kind.mp4 ∨ r.kind = Kind.webm) →
          r.status ≠ Status.pending ∧ r.status ≠ Status.failed) →
        transcodeDocumentVideo env docId profile db =
          { db := db, raised := none, trace := [Ev.claim 0] }) := by
  refine ⟨?_, ?_, ?_⟩
  · intro r _ hready
    simp [claimPred, hready]
  · intro r _ h1 h2 h3 h4
    rcases h3 with hk | hk <;> simp [claimPred, h1, h2, h4, hk]
  · intro env he h0
    subst he
    have hcount : (claimUpdate env.tClaim docId profile db).2 = 0 := by
      simp only [claimUpdate, List.length_eq_zero, List.filter_eq_nil_iff]
      intro r hr hp
      simp only [claimPred, Bool.and_eq_true, Bool.or_eq_true, beq_iff_eq] at hp
      obtain ⟨⟨⟨hdoc, hprof⟩, hkind⟩, hstat⟩ := hp
      have hx := h0 r hr hdoc hprof
        (by rcases hkind with h | h; exacts [Or.inl h, Or.inr h])
      rcases hstat with h | h
      exacts [hx.1 h, hx.2 h]
    simp [transcodeDocumentVideo, hcount,
      claimUpdate_count_zero_id env.tClaim docId profile db hcount]

/-- Witness for C3 (amended): a Ready row is unmatched, a Failed row is
matched, and an all-Ready job makes the duplicate run a no-op. -/
theorem C3_ready_never_reclaimed_witness :
    claimPred 42 "p1" mp4ReadyRow = false ∧
    claimPred 42 "p1" webmFailedRow = true ∧
    transcodeDocumentVideo envBase 42 "p1" [mp4ReadyRow, webmReadyRow] =
      { db := [mp4ReadyRow, webmReadyRow], raised := none,
        trace := [Ev.claim 0] } :=
  ⟨(C3_ready_never_reclaimed 100 42 "p1" [mp4ReadyRow]).1 mp4ReadyRow
      (List.mem_singleton.mpr rfl) (by decide),
   (C3_ready_never_reclaimed 100 42 "p1" [webmFailedRow]).2.1 webmFailedRow
      (List.mem_singleton.mpr rfl) (by decide) (by decide) (Or.inr (by decide))
      (by decide),
   (C3_ready_never_reclaimed 100 42 "p1" [mp4ReadyRow, webmReadyRow]).2.2
      envBase rfl (by decide)⟩

/-! C4: probe failure -/

/-- Environment whose probe reports an empty duration (0.0 seconds). -/
def envZeroDur : Env := { envBase with probe := Except.ok 0 }

/-- Environment whose probe subprocess exits nonzero
(`subprocess.check_output` raises `CalledProcessError`). -/
def envProbeFail : Env :=
  { envBase with probe := Except.error "ffprobe failed (exit 1)" }

/-- C4 counterexample: when the probe subprocess exits nonzero, the
`CalledProcessError` propagates from line 268, *outside* the `try` block:
the job is aborted — the trace stops at the probe spawn, so neither the
poster nor any rendition stage runs, refuting the claim that probe failure
never aborts the job. -/
theorem C4_probe_abort_counterexample :
    (transcodeDocumentVideo envProbeFail 42 "p1"
        [mp4PendingRow, webmPendingRow]).raised =
      some "ffprobe failed (exit 1)" ∧
    (transcodeDocumentVideo envProbeFail 42 "p1"
        [mp4PendingRow, webmPendingRow]).trace =
      [Ev.claim 2, Ev.spawn "ffprobe"] := by decide

/-- C4 (amended): if the probe runs but yields no duration (empty
output parsed as 0.0, clamped to a 1 ms floor), the job is not aborted:
the poster and both rendition stages still run.  If the probe subprocess
exits with nonzero status, however, the exception propagates and aborts
the job before the poster stage. -/
theorem C4_probe_failure_modes (env : Env) (docId : Nat) (profile : String)
    (db : List VideoDerivative) (n : Nat) (m w : VideoDerivative)
    (hc : (claimUpdate env.tClaim docId profile db).2 = n + 1)
    (hm : findKind docId profile Kind.mp4
        (claimUpdate env.tClaim docId profile db).1 = some m)
    (hw : findKind docId profile Kind.webm
        (claimUpdate env.tClaim docId profile db).1 = some w)
    (hpath : env.pathInsideRoot = true)
    (hfile : env.sourceFileExists = true) :
    (env.probe = Except.ok 0 → env.posterRun = Except.ok () →
        env.posterFileOk = true → env.mp4Run = Except.ok () →
        env.mp4FileOk = true →
        Ev.spawn "poster" ∈ (transcodeDocumentVideo env docId profile db).trace ∧
        Ev.spawn "mp4" ∈ (transcodeDocumentVideo env docId profile db).trace ∧
        Ev.spawn "webm" ∈ (transcodeDocumentVideo env docId profile db).trace) ∧
    (∀ e, env.probe = Except.error e →
        (transcodeDocumentVideo env docId profile db).raised = some e ∧
        Ev.spawn "poster" ∉ (transcodeDocumentVideo env docId profile db).trace) := by
  have hc' : ((claimUpdate env.tClaim docId profile db).2 == 0) = false := by
    rw [hc]; simp
  constructor
  · intro hprobe hposter hpfile hmp4 hmfile
    rcases hwr : env.webmRun with e | u <;>
      rcases hwf : env.webmFileOk <;>
      simp only [transcodeDocumentVideo, hc', Bool.false_eq_true, if_false, hm, hw,
        hpath, hfile, hprobe, Bool.not_true, transcodeStages, hposter, hpfile,
        hmp4, hmfile, hwr, hwf, webmFailOutcome, Bool.not_false, if_true] <;>
      refine ⟨?_, ?_, ?_⟩ <;> simp
  · intro e hprobe
    simp [transcodeDocumentVideo, hc', Bool.false_eq_true, if_false, hm, hw,
      hpath, hfile, hprobe, Bool.not_true]

/-- Witness for C4 (amended): with a zero duration all three stages run;
with a failing probe the run raises before the poster stage. -/
theorem C4_probe_failure_modes_witness :
    (Ev.spawn "poster" ∈ (transcodeDocumentVideo envZeroDur 42 "p1"
        [mp4PendingRow, webmPendingRow]).trace ∧
     Ev.spawn "mp4" ∈ (transcodeDocumentVideo envZeroDur 42 "p1"
        [mp4PendingRow, webmPendingRow]).trace ∧
     Ev.spawn "webm" ∈ (transcodeDocumentVideo envZeroDur 42 "p1"
        [mp4PendingRow, webmPendingRow]).trace) ∧
    ((transcodeDocumentVideo envProbeFail 42 "p1"
        [mp4PendingRow, webmPendingRow]).raised =
          some "ffprobe failed (exit 1)" ∧
     Ev.spawn "poster" ∉ (transcodeDocumentVideo envProbeFail 42 "p1"
        [mp4PendingRow, webmPendingRow]).trace) :=
  ⟨(C4_probe_failure_modes envZeroDur 42 "p1" [mp4PendingRow, webmPendingRow]
      1 (claimRow 100 mp4PendingRow) (claimRow 100 webmPendingRow)
      (by decide) (by decide) (by decide) rfl rfl).1
      rfl rfl rfl rfl rfl,
   (C4_probe_failure_modes envProbeFail 42 "p1" [mp4PendingRow, webmPendingRow]
      1 (claimRow 100 mp4PendingRow) (claimRow 100 webmPendingRow)
      (by decide) (by decide) (by decide) rfl rfl).2
      "ffprobe failed (exit 1)" rfl⟩

/-! C5: required success with optional failure -/

/-- Net progress value after a sequence of stage callback writes starting
from `p0`: each write overwrites progress with `max 5 pct`. -/
def progressAfter (d : Nat) (evs : List Nat) (p0 : Nat) : Nat :=
  evs.foldl (fun _ t => max 5 (progressPct d t)) p0

/-- The callback writes never drop progress below the floor of 5. -/
lemma progressAfter_ge_five (d : Nat) (evs : List Nat) :
    ∀ p0, 5 ≤ p0 → 5 ≤ progressAfter d evs p0 := by
  induction evs with
  | nil => intro p0 h; exact h
  | cons t ts ih => intro p0 _; exact ih _ (le_max_left 5 _)

/-- The event-fold of callback writes equals a single row-map. -/
lemma applyStageProgress_eq_map (rpk d : Nat) :
    ∀ (evs : List Nat) (db : List VideoDerivative),
      applyStageProgress rpk d evs db =
        db.map fun r =>
          if r.pk == rpk then { r with progress := progressAfter d evs r.progress }
          else r := by
  intro evs
  induction evs with
  | nil =>
    intro db
    simp only [applyStageProgress, List.foldl_nil, progressAfter]
    have hid : ∀ r : VideoDerivative,
        (if r.pk == rpk then { r with progress := r.progress } else r) = r := by
      intro r
      by_cases h : r.pk == rpk <;> simp [h]
    simp [hid]
  | cons t ts ih =>
    intro db
    show applyStageProgress rpk d ts
      (updateWhere (fun r => r.pk == rpk)
        (fun r => { r with progress := max 5 (progressPct d t) }) db) = _
    rw [ih]
    simp only [updateWhere, List.map_map]
    apply List.map_congr_left
    intro r _
    by_cases h : r.pk == rpk
    · simp [Function.comp, h, progressAfter]
    · simp [Function.comp, h]

/-- The head of a filtered list is a member of the base list. -/
lemma head?_filter_mem {p : VideoDerivative → Bool}
    {db : List VideoDerivative} {m : VideoDerivative}
    (h : (db.filter p).head? = some m) : m ∈ db := by
  cases hl : db.filter p with
  | nil => rw [hl] at h; exact absurd h (by simp)
  | cons x xs =>
    rw [hl] at h
    simp only [List.head?_cons, Option.some.injEq] at h
    subst h
    exact List.mem_of_mem_filter (hl ▸ List.mem_cons_self x xs)

/-- Lemma: `.first()` returns a row of the table. -/
lemma findKind_mem {docId : Nat} {profile : String} {k : Kind}
    {db : List VideoDerivative} {m : VideoDerivative}
    (h : findKind docId profile k db = some m) : m ∈ db := by
  unfold findKind at h
  exact head?_filter_mem h

/-- The truncated WebM failure message always contains "failed". -/
lemma webm_error_contains_failed (e : String) :
    ∃ a b, (pyTrunc 1000 ("WebM failed: " ++ e)).toList =
      a ++ "failed".toList ++ b := by
  refine ⟨"WebM ".toList, ": ".toList ++ e.toList.take 987, ?_⟩
  have hTL : ("WebM failed: " ++ e).toList = "WebM failed: ".toList ++ e.toList := by
    show ("WebM failed: " ++ e).data = _
    exact String.data_append _ _
  simp only [pyTrunc, List.toList_asString, hTL, List.take_append_eq_append_take]
  rw [List.take_of_length_le (by decide)]
  rw [show ("WebM failed: ".toList.length) = 13 from by decide]
  rw [show (1000 - 13) = 987 from by norm_num]
  rw [show "WebM failed: ".toList =
    "WebM ".toList ++ ("failed".toList ++ ": ".toList) from by decide]
  simp [List.append_assoc]

/-- Environment in which only the WebM rendition stage fails. -/
def envWebmFail : Env :=
  { envBase with webmRun := Except.error "webm encoder failed (exit 1)" }

/-- C5 counterexample: when the WebM stage fails right after the MP4
stage succeeded, the WebM failure branch (worker.py lines 486-491) does not
touch `progress`, so the WEBM record keeps the post-poster floor of 5 — it
is Failed with progress 5, not progress 0 as the claim states. -/
theorem C5_webm_progress_counterexample :
    ((transcodeDocumentVideo envWebmFail 42 "p1"
        [mp4PendingRow, webmPendingRow]).db.map
      fun r => (r.pk, r.status, r.progress)) =
      [(1, Status.ready, 100), (2, Status.failed, 5)] := by decide

/-- C5 (amended): after a successful claim, if poster and MP4 succeed
and the WebM stage fails, the call returns normally and finally: the MP4
record is Ready with progress 100, a populated output file, the poster
reference and a cleared error — unaffected by the sibling failure; the
WEBM record is Failed with the poster reference populated, an error text
containing "failed", and its progress left at its last written value
(at least the post-poster floor of 5 — it is *not* reset to 0). -/
theorem C5_optional_failure_outcome (env : Env) (docId : Nat)
    (profile : String) (db : List VideoDerivative) (n dms : Nat) (e : String)
    (m w : VideoDerivative)
    (hc : (claimUpdate env.tClaim docId profile db).2 = n + 1)
    (hm : findKind docId profile Kind.mp4
        (claimUpdate env.tClaim docId profile db).1 = some m)
    (hw : findKind docId profile Kind.webm
        (claimUpdate env.tClaim docId profile db).1 = some w)
    (hmw : m.pk ≠ w.pk)
    (hpath : env.pathInsideRoot = true)
    (hfile : env.sourceFileExists = true)
    (hprobe : env.probe = Except.ok dms)
    (hposter : env.posterRun = Except.ok ())
    (hpfile : env.posterFileOk = true)
    (hmp4 : env.mp4Run = Except.ok ())
    (hmfile : env.mp4FileOk = true)
    (hwebm : env.webmRun = Except.error e) :
    (transcodeDocumentVideo env docId profile db).raised = none ∧
    (∃ r ∈ (transcodeDocumentVideo env docId profile db).db, r.pk = m.pk) ∧
    (∃ r ∈ (transcodeDocumentVideo env docId profile db).db, r.pk = w.pk) ∧
    (∀ r ∈ (transcodeDocumentVideo env docId profile db).db,
      (r.pk = m.pk → r.status = Status.ready ∧ r.progress = 100 ∧
        r.file = some (derivedUploadPath r.documentId r.profileSlug r.kind) ∧
        r.posterImage = some env.posterImageId ∧ r.error = "") ∧
      (r.pk = w.pk → r.status = Status.failed ∧ 5 ≤ r.progress ∧
        r.posterImage = some env.posterImageId ∧
        r.error = pyTrunc 1000 ("WebM failed: " ++ e) ∧
        (∃ a b, r.error.toList = a ++ "failed".toList ++ b))) := by
  have hc' : ((claimUpdate env.tClaim docId profile db).2 == 0) = false := by
    rw [hc]; simp
  simp only [transcodeDocumentVideo, hc', Bool.false_eq_true, if_false, hm, hw,
    hpath, hfile, hprobe, Bool.not_true, transcodeStages, hposter, hpfile,
    hmp4, hmfile, hwebm, webmFailOutcome,
    applyStageProgress_eq_map, updateWhere, List.map_map]
  refine ⟨by trivial, ?_, ?_, ?_⟩
  · refine ⟨_, List.mem_map_of_mem _ (findKind_mem hm), ?_⟩
    simp [pkIn2, Function.comp, hmw]
  · refine ⟨_, List.mem_map_of_mem _ (findKind_mem hw), ?_⟩
    simp [pkIn2, Function.comp, Ne.symm hmw, hmw]
  · intro r hr
    rcases List.mem_map.mp hr with ⟨s, _, rfl⟩
    by_cases hsm : s.pk = m.pk
    · have hsw : (s.pk == w.pk) = false := by
        simp [hsm, hmw]
      constructor
      · intro _
        simp [pkIn2, Function.comp, hsm, hsw, hmw]
      · intro hcontra
        exfalso
        apply hmw
        rw [← hsm]
        revert hcontra
        simp [pkIn2, Function.comp, hsm, hsw, hmw]
    · by_cases hsw : s.pk = w.pk
      · constructor
        · intro hcontra
          exfalso
          apply hsm
          revert hcontra
          simp [pkIn2, Function.comp, hsm, hsw, Ne.symm hmw]
        · intro _
          refine ⟨?_, ?_, ?_, ?_, ?_⟩
          · simp [pkIn2, Function.comp, hsm, hsw, Ne.symm hmw]
          · simpa [pkIn2, Function.comp, hsm, hsw, Ne.symm hmw] using
              progressAfter_ge_five (max 1 dms) env.webmEvents 5 (le_refl 5)
          · simp [pkIn2, Function.comp, hsm, hsw, Ne.symm hmw]
          · simp [pkIn2, Function.comp, hsm, hsw, Ne.symm hmw]
          · simpa [pkIn2, Function.comp, hsm, hsw, Ne.symm hmw] using
              webm_error_contains_failed e
      · constructor
        · intro hcontra
          exfalso
          apply hsm
          revert hcontra
          simp [pkIn2, Function.comp, hsm, hsw]
        · intro hcontra
          exfalso
          apply hsw
          revert hcontra
          simp [pkIn2, Function.comp, hsm, hsw]

/-- Witness for C5 (amended), at the concrete two-row pending table with
only the WebM stage failing. -/
theorem C5_optional_failure_outcome_witness :
    (transcodeDocumentVideo envWebmFail 42 "p1"
        [mp4PendingRow, webmPendingRow]).raised = none ∧
    (∃ r ∈ (transcodeDocumentVideo envWebmFail 42 "p1"
        [mp4PendingRow, webmPendingRow]).db, r.pk = 1) ∧
    (∃ r ∈ (transcodeDocumentVideo envWebmFail 42 "p1"
        [mp4PendingRow, webmPendingRow]).db, r.pk = 2) ∧
    (∀ r ∈ (transcodeDocumentVideo envWebmFail 42 "p1"
        [mp4PendingRow, webmPendingRow]).db,
      (r.pk = 1 → r.status = Status.ready ∧ r.progress = 100 ∧
        r.file = some (derivedUploadPath r.documentId r.profileSlug r.kind) ∧
        r.posterImage = some 7 ∧ r.error = "") ∧
      (r.pk = 2 → r.status = Status.failed ∧ 5 ≤ r.progress ∧
        r.posterImage = some 7 ∧
        r.error = pyTrunc 1000 ("WebM failed: " ++ "webm encoder failed (exit 1)") ∧
        (∃ a b, r.error.toList = a ++ "failed".toList ++ b))) :=
  C5_optional_failure_outcome envWebmFail 42 "p1"
    [mp4PendingRow, webmPendingRow] 1 10000 "webm encoder failed (exit 1)"
    (claimRow 100 mp4PendingRow) (claimRow 100 webmPendingRow)
    (by decide) (by decide) (by decide) (by decide)
    rfl rfl rfl rfl rfl rfl rfl rfl

/-! C7: cache invalidation points -/

/-- Ledger writes that change state affecting rendered output and are
followed in the code by `cache.delete` (worker.py lines 406, 493, 280). -/
def criticalTag (s : String) : Bool :=
  s == "mp4Ready" || s == "webmReady" || s == "webmFailed" || s == "failAll"

/-- Checks that in a trace every critical ledger write is immediately
followed by a cache delete. -/
def cacheRight : List Ev → Bool
  | [] => true
  | Ev.dbWrite t :: rest =>
    if criticalTag t then
      match rest with
      | Ev.cacheDelete :: _ => cacheRight rest
      | _ => false
    else cacheRight rest
  | _ :: rest => cacheRight rest

/-- Checks that in a trace every ledger write with the given tag is
immediately followed by a cache delete. -/
def immediateCacheAfter (tag : String) : List Ev → Bool
  | [] => true
  | Ev.dbWrite t :: rest =>
    if t == tag then
      match rest with
      | Ev.cacheDelete :: _ => immediateCacheAfter tag rest
      | _ => false
    else immediateCacheAfter tag rest
  | _ :: rest => immediateCacheAfter tag rest

@[simp] lemma cacheRight_nil : cacheRight [] = true := rfl

@[simp] lemma cacheRight_claim_cons (c : Nat) (r : List Ev) :
    cacheRight (Ev.claim c :: r) = cacheRight r := rfl

@[simp] lemma cacheRight_spawn_cons (l : String) (r : List Ev) :
    cacheRight (Ev.spawn l :: r) = cacheRight r := rfl

@[simp] lemma cacheRight_delete_cons (r : List Ev) :
    cacheRight (Ev.cacheDelete :: r) = cacheRight r := rfl

@[simp] lemma cacheRight_dbWrite_nc (t : String) (r : List Ev)
    (h : criticalTag t = false) :
    cacheRight (Ev.dbWrite t :: r) = cacheRight r := by
  simp [cacheRight, h]

@[simp] lemma cacheRight_dbWrite_pair (t : String) (r : List Ev) :
    cacheRight (Ev.dbWrite t :: Ev.cacheDelete :: r) = cacheRight r := by
  cases h : criticalTag t <;> simp [cacheRight, h]

@[simp] lemma cacheRight_map_nc {α : Type} (tag : String) (r : List Ev)
    (evs : List α) (h : criticalTag tag = false) :
    cacheRight (evs.map (fun _ => Ev.dbWrite tag) ++ r) = cacheRight r := by
  induction evs with
  | nil => simp
  | cons x xs ih => simpa [h] using ih

@[simp] lemma cacheRight_replicate_nc (tag : String) (r : List Ev) (n : Nat)
    (h : criticalTag tag = false) :
    cacheRight (List.replicate n (Ev.dbWrite tag) ++ r) = cacheRight r := by
  induction n with
  | zero => simp
  | succ k ih => simpa [h, List.replicate_succ] using ih

/-- C7 counterexample: in a fully successful run the poster-attachment
write is *not* immediately followed by a cache delete (the next effect is
the MP4 stage spawn; the first cache delete only happens after the MP4
record reaches READY), refuting the claim that the cache entry is deleted
immediately after poster attachment. -/
theorem C7_poster_attach_counterexample :
    Ev.dbWrite "posterAttach" ∈ (transcodeDocumentVideo envBase 42 "p1"
        [mp4PendingRow, webmPendingRow]).trace ∧
    immediateCacheAfter "posterAttach"
      (transcodeDocumentVideo envBase 42 "p1"
        [mp4PendingRow, webmPendingRow]).trace = false := by decide

/-- C7 (amended): on every execution path the cache entry for the
(document, profile) is deleted immediately after each rendition-stage
success (MP4 READY, WebM READY), after the WebM-only failure, and after
the job-level fail-all — but not after poster attachment, where
invalidation is deferred to the next stage boundary. -/
theorem C7_cache_invalidation_points (env : Env) (docId : Nat)
    (profile : String) (db : List VideoDerivative) :
    cacheRight (transcodeDocumentVideo env docId profile db).trace = true := by
  rcases hcz : ((claimUpdate env.tClaim docId profile db).2 == 0) with _ | _
  · rcases hm : findKind docId profile Kind.mp4
        (claimUpdate env.tClaim docId profile db).1 with _ | m <;>
    rcases hw : findKind docId profile Kind.webm
        (claimUpdate env.tClaim docId profile db).1 with _ | w <;>
    rcases hpath : env.pathInsideRoot with _ | _ <;>
    rcases hfile : env.sourceFileExists with _ | _ <;>
    rcases hprobe : env.probe with e | dms <;>
    rcases hposter : env.posterRun with e2 | u2 <;>
    rcases hpfile : env.posterFileOk with _ | _ <;>
    rcases hmp4 : env.mp4Run with e3 | u3 <;>
    rcases hmfile : env.mp4FileOk with _ | _ <;>
    rcases hwebm : env.webmRun with e4 | u4 <;>
    rcases hwfile : env.webmFileOk with _ | _ <;>
    simp [transcodeDocumentVideo, transcodeStages, hcz, hm, hw, hpath, hfile,
      hprobe, hposter, hpfile, hmp4, hmfile, hwebm, hwfile, criticalTag,
      failAllOutcome, webmFailOutcome]
  · simp [transcodeDocumentVideo, hcz]

/-! C9: path safety -/

/-- C9: when the source path resolves outside MEDIA_ROOT, the worker
spawns no subprocess at all (neither the ffprobe probe nor any encoder
invocation), and — whenever the job was actually claimed and both rows
exist — the run is rejected by raising the MEDIA_ROOT ValueError. -/
theorem C9_path_safety (env : Env) (docId : Nat) (profile : String)
    (db : List VideoDerivative)
    (hpath : env.pathInsideRoot = false) :
    (∀ l, Ev.spawn l ∉ (transcodeDocumentVideo env docId profile db).trace) ∧
    ((claimUpdate env.tClaim docId profile db).2 ≠ 0 →
      ∃ msg, (transcodeDocumentVideo env docId profile db).raised = some msg) ∧
    (∀ m w, findKind docId profile Kind.mp4
          (claimUpdate env.tClaim docId profile db).1 = some m →
        findKind docId profile Kind.webm
          (claimUpdate env.tClaim docId profile db).1 = some w →
        (claimUpdate env.tClaim docId profile db).2 ≠ 0 →
        (transcodeDocumentVideo env docId profile db).raised =
          some (mediaRootMsg env)) := by
  rcases hcz : ((claimUpdate env.tClaim docId profile db).2 == 0) with _ | _
  · have hcz' : (claimUpdate env.tClaim docId profile db).2 ≠ 0 := by
      simpa using hcz
    rcases hm : findKind docId profile Kind.mp4
        (claimUpdate env.tClaim docId profile db).1 with _ | m <;>
    rcases hw : findKind docId profile Kind.webm
        (claimUpdate env.tClaim docId profile db).1 with _ | w <;>
    refine ⟨?_, ?_, ?_⟩ <;>
    simp [transcodeDocumentVideo, hcz, hm, hw, hpath]
  · have hcz' : (claimUpdate env.tClaim docId profile db).2 = 0 := by
      simpa using hcz
    refine ⟨?_, ?_, ?_⟩ <;>
    simp [transcodeDocumentVideo, hcz, hcz']

/-- Witness for C9: a claimed two-row job whose source resolves outside
MEDIA_ROOT raises and never spawns a subprocess. -/
theorem C9_path_safety_witness :
    (∀ l, Ev.spawn l ∉ (transcodeDocumentVideo envOutsideRoot 42 "p1"
        [mp4PendingRow, webmPendingRow]).trace) ∧
    ((claimUpdate 100 42 "p1" [mp4PendingRow, webmPendingRow]).2 ≠ 0 →
      ∃ msg, (transcodeDocumentVideo envOutsideRoot 42 "p1"
        [mp4PendingRow, webmPendingRow]).raised = some msg) ∧
    (∀ m w, findKind 42 "p1" Kind.mp4
          (claimUpdate 100 42 "p1" [mp4PendingRow, webmPendingRow]).1 = some m →
        findKind 42 "p1" Kind.webm
          (claimUpdate 100 42 "p1" [mp4PendingRow, webmPendingRow]).1 = some w →
        (claimUpdate 100 42 "p1" [mp4PendingRow, webmPendingRow]).2 ≠ 0 →
        (transcodeDocumentVideo envOutsideRoot 42 "p1"
          [mp4PendingRow, webmPendingRow]).raised =
            some (mediaRootMsg envOutsideRoot)) :=
  C9_path_safety envOutsideRoot 42 "p1" [mp4PendingRow, webmPendingRow] rfl

/-! C10: cached best-sources query vs uncached status query -/

/-- Result of the `hero_video_sources` template tag
(media_derivatives_tags.py lines 49-53). -/
structure HeroSources where
  webm : String
  mp4 : String
  poster : String
deriving DecidableEq, Repr

/-- The READY-only queryset of media_derivatives_tags.py lines 32-39. -/
def heroQs (docId : Nat) (profile : String)
    (db : List VideoDerivative) : List VideoDerivative :=
  db.filter fun r =>
    r.documentId == docId && r.profileSlug == profile &&
      r.status == Status.ready

/-- First row `.filter(kind=...).first()` on the READY queryset (lines 41-42). -/
def firstOfKind (k : Kind) (qs : List VideoDerivative) : Option VideoDerivative :=
  (qs.filter fun r => r.kind == k).head?

/-- Poster fallback `poster = (webm and webm.poster_image) or (mp4 and mp4.poster_image)`
followed by `poster.file.url if poster and poster.file else ""`
(lines 44-47); `imgs` maps an image id to its file URL when present. -/
def posterOf (imgs : Nat → Option String)
    (webm mp4 : Option VideoDerivative) : String :=
  match webm.bind (fun w => w.posterImage), mp4.bind (fun m => m.posterImage) with
  | some pid, _ => (imgs pid).getD ""
  | none, some pid => (imgs pid).getD ""
  | none, none => ""

/-- The database-side computation of `hero_video_sources` (the value the
tag computes on a cache miss and stores in the cache). -/
def heroVideoSourcesData (imgs : Nat → Option String) (docId : Nat)
    (profile : String) (db : List VideoDerivative) : HeroSources :=
  let qs := heroQs docId profile db
  let webm := firstOfKind Kind.webm qs
  let mp4 := firstOfKind Kind.mp4 qs
  { webm := match webm with
      | some w => w.file.getD ""
      | none => ""
    mp4 := match mp4 with
      | some m => m.file.getD ""
      | none => ""
    poster := posterOf imgs webm mp4 }

/-- Tag `hero_video_sources` including the cache lookup (lines 28-30): a hit
returns the cached dict, a miss computes from the database. -/
def heroVideoSources (cached : Option HeroSources) (imgs : Nat → Option String)
    (docId : Nat) (profile : String) (db : List VideoDerivative) : HeroSources :=
  match cached with
  | some d => d
  | none => heroVideoSourcesData imgs docId profile db

/-- One element of the `derivatives_status` JSON payload (views.py
lines 16-27). -/
structure StatusEntry where
  kind : Kind
  status : Status
  progress : Nat
  error : String
  fileUrl : String
  posterUrl : String
deriving DecidableEq, Repr

/-- The payload entry built for one row: `poster_url` is exposed from
`poster_image` regardless of the row status (views.py line 24). -/
def statusEntry (imgs : Nat → Option String) (d : VideoDerivative) : StatusEntry :=
  { kind := d.kind
    status := d.status
    progress := d.progress
    error := d.error
    fileUrl := d.file.getD ""
    posterUrl := match d.posterImage with
      | some pid => (imgs pid).getD ""
      | none => "" }

/-- View `derivatives_status` (views.py lines 11-29). -/
def derivativesStatus (imgs : Nat → Option String) (docId : Nat)
    (db : List VideoDerivative) : List StatusEntry :=
  (db.filter fun r => r.documentId == docId).map (statusEntry imgs)

/-- Non-READY rows are invisible to the best-sources computation. -/
lemma heroQs_ready_filter (docId : Nat) (profile : String)
    (db : List VideoDerivative) :
    heroQs docId profile (db.filter fun r => r.status == Status.ready) =
      heroQs docId profile db := by
  unfold heroQs
  rw [List.filter_filter]
  apply List.filter_congr
  intro r _
  cases hs : (r.status == Status.ready) <;> simp [hs]

/-- C10: the best-sources computation behind `hero_video_sources` sees
only READY rows — its result over the full table equals its result over
the READY-only table, so a non-READY record contributes empty strings for
its file and its poster even when a poster_image is attached; on a cache
miss the tag returns exactly this computation; if no READY row of a kind
exists for the (document, profile), that kind field is ""; and the
uncached `derivatives_status` payload exposes the poster URL of every row
of the document regardless of its status. -/
theorem C10_hero_hides_non_ready (imgs : Nat → Option String) (docId : Nat)
    (profile : String) (db : List VideoDerivative) :
    (heroVideoSourcesData imgs docId profile db =
      heroVideoSourcesData imgs docId profile
        (db.filter fun r => r.status == Status.ready)) ∧
    (heroVideoSources none imgs docId profile db =
      heroVideoSourcesData imgs docId profile db) ∧
    ((∀ r ∈ db, r.documentId = docId → r.profileSlug = profile →
        r.kind = Kind.mp4 → r.status ≠ Status.ready) →
      (heroVideoSourcesData imgs docId profile db).mp4 = "") ∧
    ((∀ r ∈ db, r.documentId = docId → r.profileSlug = profile →
        r.kind = Kind.webm → r.status ≠ Status.ready) →
      (heroVideoSourcesData imgs docId profile db).webm = "") ∧
    (∀ r ∈ db, r.documentId = docId → ∀ pid u, r.posterImage = some pid →
      imgs pid = some u →
      ∃ x ∈ derivativesStatus imgs docId db,
        x.kind = r.kind ∧ x.status = r.status ∧ x.posterUrl = u) := by
  have hnone : ∀ (k : Kind),
      (∀ r ∈ db, r.documentId = docId → r.profileSlug = profile →
        r.kind = k → r.status ≠ Status.ready) →
      firstOfKind k (heroQs docId profile db) = none := by
    intro k h
    unfold firstOfKind
    rw [List.filter_eq_nil_iff.mpr ?_]
    · rfl
    · intro r hr
      rcases List.mem_filter.mp hr with ⟨hmem, hpred⟩
      simp only [Bool.and_eq_true, beq_iff_eq] at hpred
      obtain ⟨⟨hdoc, hprof⟩, hready⟩ := hpred
      intro hk
      exact h r hmem hdoc hprof (by simpa using hk) hready
  refine ⟨?_, rfl, ?_, ?_, ?_⟩
  · unfold heroVideoSourcesData
    rw [heroQs_ready_filter]
  · intro h
    simp [heroVideoSourcesData, hnone Kind.mp4 h]
  · intro h
    simp [heroVideoSourcesData, hnone Kind.webm h]
  · intro r hr hdoc pid u hpid hu
    refine ⟨statusEntry imgs r, ?_, rfl, rfl, ?_⟩
    · exact List.mem_map_of_mem _
        (List.mem_filter.mpr ⟨hr, by simp [hdoc]⟩)
    · simp [statusEntry, hpid, hu]

/-- A WEBM row still Processing but with a poster already attached. -/
def webmProcessingPoster : VideoDerivative :=
  { webmPendingRow with status := Status.processing, posterImage := some 7 }

/-- Image-id to URL map for the witness. -/
def heroImgs : Nat → Option String :=
  fun pid => if pid == 7 then some "posters/7.jpg" else none

/-- Witness for C10: a Processing WEBM row with a poster is invisible to
the best-sources computation but its poster URL is exposed by the status
payload. -/
theorem C10_hero_hides_non_ready_witness :
    (heroVideoSourcesData heroImgs 42 "p1" [webmProcessingPoster] =
      heroVideoSourcesData heroImgs 42 "p1"
        ([webmProcessingPoster].filter fun r => r.status == Status.ready)) ∧
    ((heroVideoSourcesData heroImgs 42 "p1" [webmProcessingPoster]).webm = "") ∧
    (∃ x ∈ derivativesStatus heroImgs 42 [webmProcessingPoster],
      x.kind = Kind.webm ∧ x.status = Status.processing ∧
        x.posterUrl = "posters/7.jpg") := by
  refine ⟨(C10_hero_hides_non_ready heroImgs 42 "p1" [webmProcessingPoster]).1,
    (C10_hero_hides_non_ready heroImgs 42 "p1" [webmProcessingPoster]).2.2.2.1
      (by decide), ?_⟩
  obtain ⟨x, hx, h1, h2, h3⟩ :=
    (C10_hero_hides_non_ready heroImgs 42 "p1" [webmProcessingPoster]).2.2.2.2
      webmProcessingPoster (List.mem_singleton.mpr rfl) rfl 7 "posters/7.jpg"
      rfl rfl
  exact ⟨x, hx, h1, h2, h3⟩

/-! C6 and C8: the process supervisor `_run_with_progress`

The polling loop is modelled at the granularity of its ≈100 ms cycles:
elapsed wall-clock time after `cycle` iterations is `cycle` deciseconds,
so the check `now - start > timeout_seconds` becomes
`cycle > 10 * timeoutSeconds`.  The child process is described by the
first cycle at which `poll()` observes its exit, its exit code, and the
complete output lines that become readable during each cycle (byte-chunk
reassembly into lines is abstracted: the model delivers whole stripped
lines).  Recursion is by a fuel argument set to `10 * timeoutSeconds + 1`;
the fuel-exhausted base case coincides exactly with the timeout branch,
which fires at the same cycle. -/

/-- The external child process of one `_run_with_progress` call. -/
structure ProcSpec where
  exitsAt : Nat
  exitCode : Int
  linesAt : List (List String)
deriving Repr

/-- How a `_run_with_progress` call ends: normal return, a RuntimeError
raised by `_kill_and_raise`, or an exception propagating out of the
progress-sink callback. -/
inductive SupResult
  | ok
  | failedMsg (msg : String)
  | cbRaised (msg : String)
deriving DecidableEq, Repr

/-- Supervisor outcome: the result plus whether the child was reaped
(killed and waited, or exit collected by `poll()`) before control left the
function. -/
structure SupOutcome where
  result : SupResult
  reaped : Bool
deriving DecidableEq, Repr

/-- The regex `^out_time_ms=(\d+)$` (worker.py line 32), evaluated over
the character list: the literal prefix followed by one or more digits. -/
def parseOutTimeMs (line : String) : Option Nat :=
  let cs := line.toList
  if "out_time_ms=".toList.isPrefixOf cs then
    let rest := cs.drop 12
    if rest ≠ [] ∧ rest.all (fun c => c.isDigit) then
      some (rest.foldl (fun n c => n * 10 + (c.toNat - 48)) 0)
    else none
  else none

/-- Python `list(tail)[-50:]`. -/
def lastN (n : Nat) (l : List String) : List String := l.drop (l.length - n)

/-- The RuntimeError message built by `_kill_and_raise` (worker.py lines
112-115): the header, the full command, and the diagnostic tail. -/
def killAndRaiseMsg (msg : String) (cmd : List String)
    (tl : List String) : String :=
  msg ++ "\n\nCommand:\n  " ++ String.intercalate " " cmd ++
    "\n\nLast output (tail):\n" ++ String.intercalate "\n" (lastN 50 tl)

/-- Line processing `_process_buffer` on the lines readable in one cycle: every non-empty
line is appended to the tail; a line matching the progress pattern invokes
the callback, whose exception (if any) propagates immediately. -/
def procLines (cb : Nat → Except String Unit) :
    List String → List String × Except String Unit
  | [] => ([], Except.ok ())
  | l :: ls =>
    if l = "" then procLines cb ls
    else
      match parseOutTimeMs l with
      | some v =>
        match cb v with
        | Except.error e => ([l], Except.error e)
        | Except.ok _ =>
          let r := procLines cb ls
          (l :: r.1, r.2)
      | none =>
        let r := procLines cb ls
        (l :: r.1, r.2)

/-- One polling cycle of `_run_with_progress` (worker.py lines 137-192):
timeout check first, then the non-blocking read with progress parsing,
then the `poll()` exit check, then the 100 ms sleep. -/
def runLoop (p : ProcSpec) (cb : Nat → Except String Unit)
    (cmd : List String) (label : String) (timeoutSeconds : Nat) :
    Nat → Nat → List String → SupOutcome
  | 0, _, tl =>
    ⟨SupResult.failedMsg (killAndRaiseMsg
        (label ++ " timed out after " ++ toString timeoutSeconds ++ "s")
        cmd tl), true⟩
  | fuel + 1, cycle, tl =>
    if cycle > 10 * timeoutSeconds then
      ⟨SupResult.failedMsg (killAndRaiseMsg
          (label ++ " timed out after " ++ toString timeoutSeconds ++ "s")
          cmd tl), true⟩
    else
      match (procLines cb (p.linesAt.getD cycle [])).2 with
      | Except.error e => ⟨SupResult.cbRaised e, false⟩
      | Except.ok _ =>
        if cycle ≥ p.exitsAt then
          if p.exitCode ≠ 0 then
            ⟨SupResult.failedMsg (killAndRaiseMsg
                (label ++ " failed (exit " ++ toString p.exitCode ++ ")")
                cmd (tl ++ (procLines cb (p.linesAt.getD cycle [])).1)), true⟩
          else ⟨SupResult.ok, true⟩
        else runLoop p cb cmd label timeoutSeconds fuel (cycle + 1)
          (tl ++ (procLines cb (p.linesAt.getD cycle [])).1)

/-- Supervisor `_run_with_progress` (worker.py lines 65-198). -/
def runWithProgress (p : ProcSpec) (cb : Nat → Except String Unit)
    (cmd : List String) (label : String) (timeoutSeconds : Nat) : SupOutcome :=
  runLoop p cb cmd label timeoutSeconds (10 * timeoutSeconds + 1) 0 []

/-- With a callback that never raises, line processing never raises. -/
lemma procLines_ok (cb : Nat → Except String Unit)
    (hcb : ∀ n, cb n = Except.ok ()) :
    ∀ ls, (procLines cb ls).2 = Except.ok () := by
  intro ls
  induction ls with
  | nil => rfl
  | cons l ls ih =>
    by_cases hl : l = ""
    · simpa [procLines, hl] using ih
    · cases hp : parseOutTimeMs l with
      | none => simpa [procLines, hl, hp] using ih
      | some v => simp [procLines, hl, hp, hcb v, ih]

/-- Full classification of the polling loop for a callback that never
raises: the loop returns normally iff the process exits 0 no later than
the timeout deadline; every failure is a `_kill_and_raise` message built
from the command and the diagnostic tail; no third outcome exists. -/
lemma runLoop_spec (p : ProcSpec) (cb : Nat → Except String Unit)
    (cmd : List String) (label : String) (ts : Nat)
    (hcb : ∀ n, cb n = Except.ok ()) :
    ∀ (fuel cycle : Nat) (tl : List String),
      10 * ts + 1 - cycle ≤ fuel →
      (((runLoop p cb cmd label ts fuel cycle tl).result = SupResult.ok ↔
        (p.exitCode = 0 ∧ max cycle p.exitsAt ≤ 10 * ts)) ∧
      (∀ msg, (runLoop p cb cmd label ts fuel cycle tl).result =
          SupResult.failedMsg msg →
        ∃ hdr tl2, msg = killAndRaiseMsg hdr cmd tl2) ∧
      ((runLoop p cb cmd label ts fuel cycle tl).result = SupResult.ok ∨
        ∃ msg, (runLoop p cb cmd label ts fuel cycle tl).result =
          SupResult.failedMsg msg)) := by
  intro fuel
  induction fuel with
  | zero =>
    intro cycle tl hf
    have hcyc : 10 * ts < cycle := by omega
    simp only [runLoop]
    refine ⟨?_, ?_, Or.inr ⟨_, rfl⟩⟩
    · constructor
      · intro h; exact absurd h (by simp)
      · rintro ⟨_, h2⟩
        exact absurd (le_trans (le_max_left cycle p.exitsAt) h2) (by omega)
    · intro msg h
      simp only [SupResult.failedMsg.injEq] at h
      exact ⟨_, tl, h.symm⟩
  | succ fuel ih =>
    intro cycle tl hf
    by_cases htime : cycle > 10 * ts
    · simp only [runLoop, if_pos htime]
      refine ⟨?_, ?_, Or.inr ⟨_, rfl⟩⟩
      · constructor
        · intro h; exact absurd h (by simp)
        · rintro ⟨_, h2⟩
          exact absurd (le_trans (le_max_left cycle p.exitsAt) h2) (by omega)
      · intro msg h
        simp only [SupResult.failedMsg.injEq] at h
        exact ⟨_, tl, h.symm⟩
    · have hcyc : cycle ≤ 10 * ts := by omega
      by_cases hexit : cycle ≥ p.exitsAt
      · by_cases hrc : p.exitCode = 0
        · have hres : runLoop p cb cmd label ts (fuel + 1) cycle tl =
              ⟨SupResult.ok, true⟩ := by
            simp [runLoop, if_neg htime, procLines_ok cb hcb, hexit, hrc]
          rw [hres]
          refine ⟨?_, ?_, Or.inl rfl⟩
          · simp only [true_iff]
            exact ⟨hrc, Nat.max_le.mpr ⟨hcyc, le_trans hexit hcyc⟩⟩
          · intro msg h; exact absurd h (by simp)
        · have hres : runLoop p cb cmd label ts (fuel + 1) cycle tl =
              ⟨SupResult.failedMsg (killAndRaiseMsg
                (label ++ " failed (exit " ++ toString p.exitCode ++ ")")
                cmd (tl ++ (procLines cb (p.linesAt.getD cycle [])).1)), true⟩ := by
            simp [runLoop, if_neg htime, procLines_ok cb hcb, hexit, hrc]
          rw [hres]
          refine ⟨?_, ?_, Or.inr ⟨_, rfl⟩⟩
          · constructor
            · intro h; exact absurd h (by simp)
            · rintro ⟨h1, _⟩; exact absurd h1 hrc
          · intro msg h
            simp only [SupResult.failedMsg.injEq] at h
            exact ⟨_, _, h.symm⟩
      · have hlt : cycle < p.exitsAt := by omega
        have hres : runLoop p cb cmd label ts (fuel + 1) cycle tl =
            runLoop p cb cmd label ts fuel (cycle + 1)
              (tl ++ (procLines cb (p.linesAt.getD cycle [])).1) := by
          simp [runLoop, if_neg htime, procLines_ok cb hcb, hexit]
        rw [hres]
        have hf2 : 10 * ts + 1 - (cycle + 1) ≤ fuel := by omega
        obtain ⟨ih1, ih2, ih3⟩ := ih (cycle + 1)
          (tl ++ (procLines cb (p.linesAt.getD cycle [])).1) hf2
        refine ⟨?_, ih2, ih3⟩
        rw [ih1, Nat.max_eq_right (Nat.succ_le_of_lt hlt),
          Nat.max_eq_right (le_of_lt hlt)]

/-- C6: with a progress sink that does not itself raise, the
supervisor returns normally iff the child exits with status 0 no later
than the wall-clock timeout deadline (measured in 100 ms polling cycles
from process start, independent of output activity); a nonzero exit or a
timeout makes it kill and reap the process and raise a RuntimeError whose
message is built from the header, the full space-joined command, and the
trailing diagnostic output; no other outcome exists. -/
theorem C6_supervisor_contract (p : ProcSpec) (cb : Nat → Except String Unit)
    (cmd : List String) (label : String) (ts : Nat)
    (hcb : ∀ n, cb n = Except.ok ()) :
    ((runWithProgress p cb cmd label ts).result = SupResult.ok ↔
      (p.exitCode = 0 ∧ p.exitsAt ≤ 10 * ts)) ∧
    (∀ msg, (runWithProgress p cb cmd label ts).result =
        SupResult.failedMsg msg →
      ∃ hdr tl, msg = killAndRaiseMsg hdr cmd tl) ∧
    (∀ hdr tl, ∃ a b, killAndRaiseMsg hdr cmd tl =
        a ++ String.intercalate " " cmd ++ b ∧
        b = "\n\nLast output (tail):\n" ++
          String.intercalate "\n" (lastN 50 tl)) ∧
    ((runWithProgress p cb cmd label ts).result = SupResult.ok ∨
      ∃ msg, (runWithProgress p cb cmd label ts).result =
        SupResult.failedMsg msg) := by
  obtain ⟨h1, h2, h3⟩ :=
    runLoop_spec p cb cmd label ts hcb (10 * ts + 1) 0 [] (by omega)
  refine ⟨?_, h2, ?_, h3⟩
  · rw [runWithProgress] at *
    rw [h1, Nat.max_eq_right (Nat.zero_le _)]
  · intro hdr tl
    refine ⟨hdr ++ "\n\nCommand:\n  ", "\n\nLast output (tail):\n" ++
      String.intercalate "\n" (lastN 50 tl), ?_, rfl⟩
    unfold killAndRaiseMsg
    rw [String.append_assoc]

/-- Witness for C6: an immediately exiting status-0 process makes the
supervisor return normally. -/
theorem C6_supervisor_contract_witness :
    (runWithProgress ⟨0, 0, []⟩ (fun _ => Except.ok ())
      ["ffmpeg", "-y"] "poster" 30).result = SupResult.ok :=
  (C6_supervisor_contract ⟨0, 0, []⟩ (fun _ => Except.ok ())
    ["ffmpeg", "-y"] "poster" 30 (fun _ => rfl)).1.mpr ⟨rfl, by decide⟩

/-- A progress-sink callback that raises on every invocation. -/
def cbRaising : Nat → Except String Unit :=
  fun _ => Except.error "progress sink raised"

/-- C8 counterexample: a progress line delivered to a raising callback
makes the exception propagate out of the polling loop through the
`finally` (which only closes the stdout pipe): the child is neither killed
nor waited on — an exit path on which the process is not reaped. -/
theorem C8_orphan_counterexample :
    runWithProgress ⟨50, 0, [["out_time_ms=5"]]⟩ cbRaising
      ["ffmpeg", "-i", "in.mp4"] "mp4" 30 =
      ⟨SupResult.cbRaised "progress sink raised", false⟩ := by decide

/-- The loop reaps the child exactly on the non-callback-exception paths. -/
lemma runLoop_reaped (p : ProcSpec) (cb : Nat → Except String Unit)
    (cmd : List String) (label : String) (ts : Nat) :
    ∀ (fuel cycle : Nat) (tl : List String),
      (∃ m, (runLoop p cb cmd label ts fuel cycle tl).result =
          SupResult.cbRaised m ∧
        (runLoop p cb cmd label ts fuel cycle tl).reaped = false) ∨
      ((runLoop p cb cmd label ts fuel cycle tl).reaped = true ∧
        ∀ m, (runLoop p cb cmd label ts fuel cycle tl).result ≠
          SupResult.cbRaised m) := by
  intro fuel
  induction fuel with
  | zero =>
    intro cycle tl
    simp only [runLoop]
    exact Or.inr ⟨by trivial, by simp⟩
  | succ fuel ih =>
    intro cycle tl
    by_cases htime : cycle > 10 * ts
    · have hres : runLoop p cb cmd label ts (fuel + 1) cycle tl =
          ⟨SupResult.failedMsg (killAndRaiseMsg
            (label ++ " timed out after " ++ toString ts ++ "s") cmd tl),
           true⟩ := by
        simp only [runLoop]
        rw [if_pos htime]
      rw [hres]
      exact Or.inr ⟨rfl, by simp⟩
    · cases hpr : (procLines cb (p.linesAt.getD cycle [])).2 with
      | error e =>
        have hres : runLoop p cb cmd label ts (fuel + 1) cycle tl =
            ⟨SupResult.cbRaised e, false⟩ := by
          simp only [runLoop]
          rw [if_neg htime]
          simp only [hpr]
        rw [hres]
        exact Or.inl ⟨e, rfl, rfl⟩
      | ok u =>
        by_cases hexit : cycle ≥ p.exitsAt
        · by_cases hrc : p.exitCode = 0
          · have hres : runLoop p cb cmd label ts (fuel + 1) cycle tl =
                ⟨SupResult.ok, true⟩ := by
              simp only [runLoop]
              rw [if_neg htime]
              simp only [hpr]
              rw [if_pos hexit, if_neg (not_not_intro hrc)]
            rw [hres]
            exact Or.inr ⟨rfl, by simp⟩
          · have hres : runLoop p cb cmd label ts (fuel + 1) cycle tl =
                ⟨SupResult.failedMsg (killAndRaiseMsg
                  (label ++ " failed (exit " ++ toString p.exitCode ++ ")")
                  cmd (tl ++ (procLines cb (p.linesAt.getD cycle [])).1)),
                 true⟩ := by
              simp only [runLoop]
              rw [if_neg htime]
              simp only [hpr]
              rw [if_pos hexit, if_pos hrc]
            rw [hres]
            exact Or.inr ⟨rfl, by simp⟩
        · have hres : runLoop p cb cmd label ts (fuel + 1) cycle tl =
              runLoop p cb cmd label ts fuel (cycle + 1)
                (tl ++ (procLines cb (p.linesAt.getD cycle [])).1) := by
            simp only [runLoop]
            rw [if_neg htime]
            simp only [hpr]
            rw [if_neg hexit]
          rw [hres]
          exact ih (cycle + 1) _

/-- C8 (amended): on a normal return and on every supervisor-raised
failure (nonzero exit, timeout) the child has been reaped — killed and/or
collected by `poll()`/`wait()` — before control leaves `_run_with_progress`;
but when the progress-sink callback raises, the exception propagates with
only the stdout pipe closed and the child is neither killed nor waited on. -/
theorem C8_reaped_on_exit_paths (p : ProcSpec) (cb : Nat → Except String Unit)
    (cmd : List String) (label : String) (ts : Nat) :
    (((runWithProgress p cb cmd label ts).result = SupResult.ok ∨
      (∃ m, (runWithProgress p cb cmd label ts).result =
        SupResult.failedMsg m)) →
      (runWithProgress p cb cmd label ts).reaped = true) ∧
    (∀ m, (runWithProgress p cb cmd label ts).result = SupResult.cbRaised m →
      (runWithProgress p cb cmd label ts).reaped = false) := by
  rcases runLoop_reaped p cb cmd label ts (10 * ts + 1) 0 [] with
    ⟨m, hm, hrp⟩ | ⟨hrp, hnc⟩
  · constructor
    · intro h
      rcases h with h | ⟨m2, h⟩
      · rw [runWithProgress] at *
        rw [hm] at h; exact absurd h (by simp)
      · rw [runWithProgress] at *
        rw [hm] at h; exact absurd h (by simp)
    · intro _ _
      exact hrp
  · constructor
    · intro _
      exact hrp
    · intro m h
      exact absurd h (hnc m)

/-- Witness for C8 (amended): a nonzero-exit run has reaped the child. -/
theorem C8_reaped_on_exit_paths_witness :
    (runWithProgress ⟨0, 1, []⟩ (fun _ => Except.ok ())
      ["ffmpeg"] "mp4" 1).reaped = true :=
  (C8_reaped_on_exit_paths ⟨0, 1, []⟩ (fun _ => Except.ok ())
    ["ffmpeg"] "mp4" 1).1 (Or.inr ⟨_, rfl⟩)

end Skinmenu
